import Mathlib

/-!
Shallow embedding of the `StyleAIEngine` class of the Stylisti repository
(`src/ai/style-engine.ts`, provided as an unnamed source part) together with
the data model of `src/types/outfit.ts`.  Numbers are modelled as exact
rationals (the JavaScript arithmetic in this engine only involves the
constants 0.2/0.3/0.4/0.5/0.6/0.7/0.8/0.9/1 combined by sums, one division by
a list length, and one division by 3, all exact); JavaScript arrays are Lean
lists, optional fields are `Option`, and `Math.random()` / `Date.now()` are
explicit parameters (a stream of draws and a clock value).
-/

namespace Stylisti

/-- Ratings attached to an outfit (`OutfitRatings` in `outfit.ts`); the two
optional boolean fields are kept to make the record faithful. -/
structure OutfitRatings where
  confidence : ℚ
  comfort : ℚ
  success : ℚ
  repeatLikelihood : ℚ
  receivedCompliments : Option Bool := none
  feltAppropriate : Option Bool := none
  deriving Repr, DecidableEq

/-- Tag block of an outfit (`OutfitTags` in `outfit.ts`). -/
structure OutfitTags where
  occasion : List String
  season : List String
  style : List String
  mood : String
  colors : List String
  garments : List String
  formalityLevel : Option ℚ := none
  deriving Repr, DecidableEq

/-- An outfit record (`Outfit` in `outfit.ts`), restricted to the fields the
engine can observe plus enough extra fields (id, notes, ratings) to express
that the analysis ignores them. -/
structure Outfit where
  id : String
  tags : OutfitTags
  ratings : Option OutfitRatings := none
  notes : Option String := none
  deriving Repr, DecidableEq

/-- Result of `analyzeOutfit` (`AIAnalysis` in `outfit.ts`). -/
structure AIAnalysis where
  styleCoherence : ℚ
  colorHarmony : ℚ
  occasionAppropriateness : ℚ
  summary : String
  suggestedImprovements : List String
  confidenceFactors : List String
  deriving Repr, DecidableEq

/-- A recommendation (`OutfitRecommendation` in `outfit.ts`). -/
structure OutfitRecommendation where
  id : String
  score : ℚ
  reasoning : List String
  weatherScore : ℚ
  occasionScore : ℚ
  personalScore : ℚ
  confidenceScore : ℚ
  deriving Repr, DecidableEq

/-- The context object passed to `generateRecommendations`; the engine never
reads it, but we keep the fields the callers populate (including `limit`) to
state context-independence. -/
structure RecContext where
  limit : Option ℕ := none
  occasion : Option String := none
  weather : Option String := none
  deriving Repr, DecidableEq

/-- JavaScript `s.toLowerCase()`: lower-case every character (identical to
`String.toLower`, written character-wise over the underlying list so it
evaluates inside the kernel). -/
def jsToLower (s : String) : String :=
  ⟨s.data.map Char.toLower⟩

/-- JavaScript `haystack.includes(needle)` on strings: substring occurrence
test, searching every start offset. -/
def strIncludesSub (s pat : String) : Bool :=
  (List.range (s.data.length + 1)).any fun i =>
    decide (List.take pat.data.length (List.drop i s.data) = pat.data)

/-- The fixed table of mutually incompatible style pairs used by
`checkStyleConflicts`. -/
def styleConflictTable : List (String × String) :=
  [("formal", "casual"), ("minimalist", "bohemian"), ("edgy", "romantic")]

/-- `checkStyleConflicts` of `style-engine.ts`: counts how many conflict pairs
have both members present in the style tags (a loop over the table
incrementing a counter). -/
def checkStyleConflicts (styles : List String) : ℕ :=
  styleConflictTable.foldl
    (fun conflictCount c =>
      if c.1 ∈ styles ∧ c.2 ∈ styles then conflictCount + 1 else conflictCount) 0

/-- `calculateStyleCoherence` of `style-engine.ts`: 0.5 for empty style tags,
otherwise 0.8 minus 0.2 per conflict, clamped into [0, 1] via
`Math.max(0, Math.min(1, _))`. -/
def calculateStyleCoherence (outfit : Outfit) : ℚ :=
  let styles := outfit.tags.style
  if styles.length = 0 then 0.5
  else
    let conflicts := checkStyleConflicts styles
    let baseScore : ℚ := 0.8
    let penalty : ℚ := (conflicts : ℚ) * 0.2
    max 0 (min 1 (baseScore - penalty))

/-- The fixed neutral-colour list of `calculateColorHarmony`. -/
def neutrals : List String :=
  ["black", "white", "gray", "navy", "beige", "brown"]

/-- `calculateColorHarmony` of `style-engine.ts`: 0.5 for no colours, 0.9 for
one colour, otherwise 0.5 + 0.4 × (fraction of colours whose lower-cased text
contains some neutral colour as a substring). -/
def calculateColorHarmony (colors : List String) : ℚ :=
  if colors.length = 0 then 0.5
  else if colors.length = 1 then 0.9
  else
    let neutralCount :=
      (colors.filter fun color =>
        neutrals.any fun neutral => strIncludesSub (jsToLower color) neutral).length
    let neutralRatio : ℚ := (neutralCount : ℚ) / (colors.length : ℚ)
    0.5 + neutralRatio * 0.4

/-- `calculateOccasionFit` of `style-engine.ts`: 0.5 for empty occasion tags,
otherwise the constant 0.8. -/
def calculateOccasionFit (outfit : Outfit) : ℚ :=
  if outfit.tags.occasion.length = 0 then 0.5 else 0.8

/-- `generateAnalysisSummary` of `style-engine.ts`: three-tier message chosen
by the mean of the three scores with thresholds 0.8 and 0.6. -/
def generateAnalysisSummary (style color occasion : ℚ) : String :=
  let overall := (style + color + occasion) / 3
  if overall ≥ 0.8 then
    "Excellent outfit choice! Great style coherence and perfect for the occasion."
  else if overall ≥ 0.6 then
    "Good outfit with room for minor improvements."
  else
    "Consider adjusting some elements for better overall harmony."

/-- `generateImprovements` of `style-engine.ts`: pushes one fixed string for
each of three independent conditions, in source order. -/
def generateImprovements (outfit : Outfit) (style color : ℚ) : List String :=
  (if style < 0.6 then
    ["Consider choosing accessories that better match your overall style"]
   else []) ++
  (if color < 0.6 then
    ["Try limiting to 2-3 main colors for better harmony"]
   else []) ++
  (if outfit.tags.garments.length > 6 then
    ["Simplify the outfit by removing one accessory"]
   else [])

/-- `identifyConfidenceFactors` of `style-engine.ts`: three independent tests
in source order; note that the colour test is
`colors.some(color => ['navy', 'black'].includes(color))`, an exact,
case-sensitive membership test on whole colour strings. -/
def identifyConfidenceFactors (outfit : Outfit) : List String :=
  (if "classic" ∈ outfit.tags.style then
    ["Classic style choices tend to boost confidence"]
   else []) ++
  (if ∃ color ∈ outfit.tags.colors, color ∈ (["navy", "black"] : List String) then
    ["Dark colors create a polished, confident appearance"]
   else []) ++
  (if "work" ∈ outfit.tags.occasion then
    ["Professional appropriate outfit builds workplace confidence"]
   else [])

/-- `analyzeOutfit` of `style-engine.ts`: assembles the three scores, summary,
improvements and confidence factors.  The JavaScript function is `async` but
performs no awaiting or effects, so it is a pure function here. -/
def analyzeOutfit (outfit : Outfit) : AIAnalysis :=
  let styleCoherence := calculateStyleCoherence outfit
  let colorHarmony := calculateColorHarmony outfit.tags.colors
  let occasionAppropriateness := calculateOccasionFit outfit
  { styleCoherence := styleCoherence
    colorHarmony := colorHarmony
    occasionAppropriateness := occasionAppropriateness
    summary := generateAnalysisSummary styleCoherence colorHarmony occasionAppropriateness
    suggestedImprovements := generateImprovements outfit styleCoherence colorHarmony
    confidenceFactors := identifyConfidenceFactors outfit }

/-- `generateRatingInsights` of `style-engine.ts`: a no-rating message when
`ratings` is absent, else up to four notes pushed in source order. -/
def generateRatingInsights (outfit : Outfit) : List String :=
  match outfit.ratings with
  | none => ["No ratings provided yet."]
  | some r =>
    (if r.confidence ≥ 8 then
      ["High confidence outfit - great style choice!"]
     else if r.confidence ≤ 4 then
      ["Consider what made you feel less confident about this outfit."]
     else []) ++
    (if r.comfort ≥ 8 then
      ["Very comfortable - perfect for active days."]
     else if r.comfort ≤ 4 then
      ["Low comfort - consider fabric and fit adjustments."]
     else []) ++
    (if r.success ≥ 8 then
      ["Highly successful outfit - save this combination!"]
     else []) ++
    (if r.confidence > r.comfort then
      ["Style over comfort trade-off - consider more comfortable alternatives."]
     else [])

/-- The five fixed strategy names of `generateRecommendations`. -/
def approaches : List String :=
  ["high_confidence_historical", "weather_optimized", "occasion_perfect",
   "comfort_focused", "style_exploration"]

/-- `generateRecommendationReasoning` of `style-engine.ts`: the fixed
three-string reasoning list per strategy, with a one-string fallback. -/
def generateRecommendationReasoning (approach : String) (_ctx : RecContext) :
    List String :=
  if approach = "high_confidence_historical" then
    ["Based on your highest-rated outfits",
     "Proven confidence booster",
     "Similar weather conditions performed well"]
  else if approach = "weather_optimized" then
    ["Perfect for current weather conditions",
     "Breathable fabrics for comfort",
     "Appropriate layering options"]
  else if approach = "occasion_perfect" then
    ["Ideal for the planned occasion",
     "Meets dress code requirements",
     "Professional yet approachable"]
  else if approach = "comfort_focused" then
    ["Maximum comfort for all-day wear",
     "Soft, stretchy fabrics",
     "Easy movement and flexibility"]
  else if approach = "style_exploration" then
    ["Try something new within your style range",
     "Subtle variation on your usual look",
     "Low-risk style experiment"]
  else
    ["General recommendation based on your preferences"]

/-- `generateSingleRecommendation` of `style-engine.ts`.  `rand` is the stream
of `Math.random()` draws (each in [0, 1)), `now` the `Date.now()` value and
`k` the index of the first draw this call consumes; the id's random suffix is
modelled as the decimal rendering of its draw. -/
def generateSingleRecommendation (rand : ℕ → ℚ) (now k : ℕ) (ctx : RecContext)
    (approach : String) : OutfitRecommendation :=
  let baseScore := rand k * 0.3 + 0.7
  { id := "rec-" ++ toString now ++ "-" ++ toString (rand (k + 1))
    score := baseScore
    reasoning := generateRecommendationReasoning approach ctx
    weatherScore := rand (k + 2) * 0.3 + 0.7
    occasionScore := rand (k + 3) * 0.3 + 0.7
    personalScore := rand (k + 4) * 0.3 + 0.7
    confidenceScore := rand (k + 5) * 0.3 + 0.7 }

/-- Descending-score order used by `recommendations.sort((a, b) => b.score - a.score)`. -/
def recScoreGE (a b : OutfitRecommendation) : Prop := b.score ≤ a.score

instance : DecidableRel recScoreGE := fun a b => by
  unfold recScoreGE; infer_instance

instance : IsTotal OutfitRecommendation recScoreGE :=
  ⟨fun a b => le_total b.score a.score⟩

instance : IsTrans OutfitRecommendation recScoreGE :=
  ⟨fun _ _ _ h h' => le_trans h' h⟩

/-- `generateRecommendations` of `style-engine.ts`: one recommendation per
strategy (each consuming six random draws), then sorted by score descending. -/
def generateRecommendations (rand : ℕ → ℚ) (now : ℕ) (ctx : RecContext) :
    List OutfitRecommendation :=
  let recommendations :=
    approaches.enum.map fun p =>
      generateSingleRecommendation rand now (6 * p.1) ctx p.2
  recommendations.insertionSort recScoreGE

/-- The outfit with every occurrence of one style tag removed (used to state
what happens when a conflicting tag is dropped). -/
def removeStyleTag (o : Outfit) (t : String) : Outfit :=
  { o with tags := { o.tags with style := o.tags.style.filter fun s => s != t } }

/-- Sample outfit whose tag collections are all empty. -/
def outfitNoTags : Outfit :=
  { id := "sample-empty"
    tags := { occasion := []
              season := []
              style := []
              mood := ""
              colors := []
              garments := [] } }

/-- Sample outfit tagged with the conflicting pair "formal"/"casual". -/
def outfitFormalCasual : Outfit :=
  { id := "sample-formal-casual"
    tags := { occasion := []
              season := []
              style := ["formal", "casual"]
              mood := ""
              colors := []
              garments := [] } }

/-- Sample outfit with a single colour. -/
def outfitOneColor : Outfit :=
  { id := "sample-one-color"
    tags := { occasion := []
              season := []
              style := []
              mood := ""
              colors := ["red"]
              garments := [] } }

/-- Sample outfit with colours ["red", "navy"]. -/
def outfitRedNavy : Outfit :=
  { id := "sample-red-navy"
    tags := { occasion := []
              season := []
              style := []
              mood := ""
              colors := ["red", "navy"]
              garments := [] } }

/-- Sample outfit whose only colour is the capitalised string "Navy". -/
def outfitCapitalNavy : Outfit :=
  { id := "sample-capital-navy"
    tags := { occasion := []
              season := []
              style := []
              mood := ""
              colors := ["Navy"]
              garments := [] } }

/-- Sample outfit with scores 0.8 (style, no conflict), 0.5 (two non-neutral
colours) and 0.8 (occasion): mean 0.7, the middle summary tier. -/
def outfitMidTier : Outfit :=
  { id := "sample-mid-tier"
    tags := { occasion := ["work"]
              season := []
              style := ["classic"]
              mood := ""
              colors := ["red", "green"]
              garments := [] } }

/-- Tag block shared by the twin sample outfits below. -/
def twinTags : OutfitTags :=
  { occasion := ["work"]
    season := ["winter"]
    style := ["classic"]
    mood := "confident"
    colors := ["navy", "white"]
    garments := ["blazer", "shirt"] }

/-- First of two outfits sharing `twinTags` but differing elsewhere. -/
def outfitTwinA : Outfit :=
  { id := "twin-a"
    tags := twinTags }

/-- Second of two outfits sharing `twinTags` but differing in id, ratings and
notes. -/
def outfitTwinB : Outfit :=
  { id := "twin-b"
    tags := twinTags
    ratings := some { confidence := 7, comfort := 6, success := 7, repeatLikelihood := 8 }
    notes := some "different record, same tags" }

/-- The ratings {confidence 9, comfort 3, success 8} of the C4 scenario. -/
def ratings938 : OutfitRatings :=
  { confidence := 9
    comfort := 3
    success := 8
    repeatLikelihood := 5 }

/-- Sample outfit carrying the ratings of the C4 scenario. -/
def outfitRated938 : Outfit :=
  { id := "sample-rated-938"
    tags := twinTags
    ratings := some ratings938 }

@[simp] theorem analyzeOutfit_styleCoherence (o : Outfit) :
    (analyzeOutfit o).styleCoherence = calculateStyleCoherence o := rfl

@[simp] theorem analyzeOutfit_colorHarmony (o : Outfit) :
    (analyzeOutfit o).colorHarmony = calculateColorHarmony o.tags.colors := rfl

@[simp] theorem analyzeOutfit_occasion (o : Outfit) :
    (analyzeOutfit o).occasionAppropriateness = calculateOccasionFit o := rfl

@[simp] theorem analyzeOutfit_summary (o : Outfit) :
    (analyzeOutfit o).summary =
      generateAnalysisSummary (calculateStyleCoherence o)
        (calculateColorHarmony o.tags.colors) (calculateOccasionFit o) := rfl

@[simp] theorem analyzeOutfit_improvements (o : Outfit) :
    (analyzeOutfit o).suggestedImprovements =
      generateImprovements o (calculateStyleCoherence o)
        (calculateColorHarmony o.tags.colors) := rfl

@[simp] theorem analyzeOutfit_factors (o : Outfit) :
    (analyzeOutfit o).confidenceFactors = identifyConfidenceFactors o := rfl

theorem checkStyleConflicts_eq (styles : List String) :
    checkStyleConflicts styles =
      (if "formal" ∈ styles ∧ "casual" ∈ styles then 1 else 0) +
      (if "minimalist" ∈ styles ∧ "bohemian" ∈ styles then 1 else 0) +
      (if "edgy" ∈ styles ∧ "romantic" ∈ styles then 1 else 0) := by
  simp only [checkStyleConflicts, styleConflictTable, List.foldl_cons, List.foldl_nil]
  split_ifs <;> omega

theorem checkStyleConflicts_le_three (styles : List String) :
    checkStyleConflicts styles ≤ 3 := by
  rw [checkStyleConflicts_eq]
  split_ifs <;> omega

theorem calculateStyleCoherence_clamped (o : Outfit) (h : o.tags.style.length ≠ 0) :
    calculateStyleCoherence o =
      max 0 (min 1 (0.8 - (checkStyleConflicts o.tags.style : ℚ) * 0.2)) := by
  unfold calculateStyleCoherence
  rw [if_neg h]

theorem calculateStyleCoherence_of_ne_nil (o : Outfit) (h : o.tags.style ≠ []) :
    calculateStyleCoherence o =
      0.8 - (checkStyleConflicts o.tags.style : ℚ) * 0.2 := by
  have hlen : o.tags.style.length ≠ 0 := by
    simpa [List.length_eq_zero] using h
  have hle : checkStyleConflicts o.tags.style ≤ 3 :=
    checkStyleConflicts_le_three o.tags.style
  have hleQ : (checkStyleConflicts o.tags.style : ℚ) ≤ 3 := by exact_mod_cast hle
  have h0 : (0 : ℚ) ≤ (checkStyleConflicts o.tags.style : ℚ) := by positivity
  rw [calculateStyleCoherence_clamped o hlen]
  rw [min_eq_right (by nlinarith), max_eq_right (by nlinarith)]

/-- C1: `styleCoherence` is 0.5 on empty style tags; otherwise it is the base
0.8 minus 0.2 per conflict pair present from the fixed table, clamped to
[0, 1]; and whenever "formal" and "casual" are both tagged the score is at
most 0.6 and strictly below the score of the same outfit with the "casual"
tag removed. -/
theorem C1_styleCoherence (o : Outfit) :
    (o.tags.style = [] → (analyzeOutfit o).styleCoherence = 0.5) ∧
    (o.tags.style ≠ [] →
      (analyzeOutfit o).styleCoherence =
        max 0 (min 1 (0.8 -
          (((if "formal" ∈ o.tags.style ∧ "casual" ∈ o.tags.style then 1 else 0) +
            (if "minimalist" ∈ o.tags.style ∧ "bohemian" ∈ o.tags.style then 1 else 0) +
            (if "edgy" ∈ o.tags.style ∧ "romantic" ∈ o.tags.style then 1 else 0) : ℕ) : ℚ)
          * 0.2))) ∧
    ("formal" ∈ o.tags.style → "casual" ∈ o.tags.style →
      (analyzeOutfit o).styleCoherence ≤ 0.6 ∧
      (analyzeOutfit o).styleCoherence <
        (analyzeOutfit (removeStyleTag o "casual")).styleCoherence) := by
  refine ⟨fun hnil => ?_, fun hne => ?_, fun hf hc => ?_⟩
  · simp [calculateStyleCoherence, hnil]
  · have hlen : o.tags.style.length ≠ 0 := by
      simpa [List.length_eq_zero] using hne
    rw [analyzeOutfit_styleCoherence, calculateStyleCoherence_clamped o hlen,
      checkStyleConflicts_eq]
  · have hne : o.tags.style ≠ [] := by
      intro hnil; rw [hnil] at hf; exact (List.not_mem_nil _ hf)
    set styles := o.tags.style with hstyles
    set stylesR := styles.filter (fun s => s != "casual") with hstylesR
    have hmemR : ∀ t : String, t ≠ "casual" → (t ∈ stylesR ↔ t ∈ styles) := by
      intro t ht
      simp [hstylesR, List.mem_filter, ht]
    have hfR : "formal" ∈ stylesR := (hmemR "formal" (by decide)).2 hf
    have hncR : "casual" ∉ stylesR := by
      simp [hstylesR, List.mem_filter]
    have hneR : stylesR ≠ [] := by
      intro hnil; rw [hnil] at hfR; exact (List.not_mem_nil _ hfR)
    have hrm : (removeStyleTag o "casual").tags.style = stylesR := rfl
    have hA : (if "formal" ∈ stylesR ∧ "casual" ∈ stylesR then (1 : ℕ) else 0) = 0 :=
      if_neg fun hp => hncR hp.2
    have hB : (if "formal" ∈ styles ∧ "casual" ∈ styles then (1 : ℕ) else 0) = 1 :=
      if_pos ⟨hf, hc⟩
    have hC : (if "minimalist" ∈ stylesR ∧ "bohemian" ∈ stylesR then (1 : ℕ) else 0) =
        (if "minimalist" ∈ styles ∧ "bohemian" ∈ styles then 1 else 0) :=
      if_congr (and_congr (hmemR _ (by decide)) (hmemR _ (by decide))) rfl rfl
    have hD : (if "edgy" ∈ stylesR ∧ "romantic" ∈ stylesR then (1 : ℕ) else 0) =
        (if "edgy" ∈ styles ∧ "romantic" ∈ styles then 1 else 0) :=
      if_congr (and_congr (hmemR _ (by decide)) (hmemR _ (by decide))) rfl rfl
    have hcount : checkStyleConflicts styles = checkStyleConflicts stylesR + 1 := by
      rw [checkStyleConflicts_eq, checkStyleConflicts_eq, hA, hB, hC, hD]
      omega
    have hcoh : calculateStyleCoherence o =
        0.8 - (checkStyleConflicts styles : ℚ) * 0.2 :=
      calculateStyleCoherence_of_ne_nil o hne
    have hcohR : calculateStyleCoherence (removeStyleTag o "casual") =
        0.8 - (checkStyleConflicts stylesR : ℚ) * 0.2 := by
      have h2 := calculateStyleCoherence_of_ne_nil (removeStyleTag o "casual")
        (by rw [hrm]; exact hneR)
      rwa [hrm] at h2
    have h0 : (0 : ℚ) ≤ (checkStyleConflicts stylesR : ℚ) := by positivity
    constructor
    · rw [analyzeOutfit_styleCoherence, hcoh, hcount]
      push_cast
      linarith
    · rw [analyzeOutfit_styleCoherence, analyzeOutfit_styleCoherence, hcoh, hcohR, hcount]
      push_cast
      linarith

/-- C1 witness: concrete instantiations discharging each hypothesis — the
empty-style outfit scores 0.5; the ["formal", "casual"] outfit matches the
penalty formula with one conflict, scores at most 0.6, and scores strictly
below its variant with the "casual" tag removed. -/
theorem C1_styleCoherence_witness :
    (analyzeOutfit outfitNoTags).styleCoherence = 0.5 ∧
    (analyzeOutfit outfitFormalCasual).styleCoherence ≤ 0.6 ∧
    (analyzeOutfit outfitFormalCasual).styleCoherence <
      (analyzeOutfit (removeStyleTag outfitFormalCasual "casual")).styleCoherence ∧
    (analyzeOutfit outfitFormalCasual).styleCoherence =
      max 0 (min 1 (0.8 - ((1 : ℕ) : ℚ) * 0.2)) := by
  refine ⟨(C1_styleCoherence outfitNoTags).1 rfl,
    ((C1_styleCoherence outfitFormalCasual).2.2 (by decide) (by decide)).1,
    ((C1_styleCoherence outfitFormalCasual).2.2 (by decide) (by decide)).2, ?_⟩
  have h := (C1_styleCoherence outfitFormalCasual).2.1 (by decide)
  have hsum :
      (((if "formal" ∈ outfitFormalCasual.tags.style ∧
            "casual" ∈ outfitFormalCasual.tags.style then 1 else 0) +
        (if "minimalist" ∈ outfitFormalCasual.tags.style ∧
            "bohemian" ∈ outfitFormalCasual.tags.style then 1 else 0) +
        (if "edgy" ∈ outfitFormalCasual.tags.style ∧
            "romantic" ∈ outfitFormalCasual.tags.style then 1 else 0)) : ℕ) = 1 := by
    decide
  rw [h, hsum]

/-- C10: on any outfit with non-empty style tags the clamp in
`calculateStyleCoherence` is inactive (the score is exactly 0.8 minus the
penalty), the conflict count is at most 3, and the score is one of
0.2, 0.4, 0.6, 0.8 — in particular at least 0.2. -/
theorem C10_coherence_values (o : Outfit) (h : o.tags.style ≠ []) :
    (analyzeOutfit o).styleCoherence =
      0.8 - (checkStyleConflicts o.tags.style : ℚ) * 0.2 ∧
    checkStyleConflicts o.tags.style ≤ 3 ∧
    0.2 ≤ (analyzeOutfit o).styleCoherence ∧
    ((analyzeOutfit o).styleCoherence = 0.2 ∨ (analyzeOutfit o).styleCoherence = 0.4 ∨
     (analyzeOutfit o).styleCoherence = 0.6 ∨ (analyzeOutfit o).styleCoherence = 0.8) := by
  have hcoh := calculateStyleCoherence_of_ne_nil o h
  have hle := checkStyleConflicts_le_three o.tags.style
  refine ⟨by rw [analyzeOutfit_styleCoherence, hcoh], hle, ?_, ?_⟩
  · rw [analyzeOutfit_styleCoherence, hcoh]
    have hleQ : (checkStyleConflicts o.tags.style : ℚ) ≤ 3 := by exact_mod_cast hle
    linarith
  · rw [analyzeOutfit_styleCoherence, hcoh]
    set c := checkStyleConflicts o.tags.style with hc
    interval_cases c <;> norm_num

/-- C10 witness: the ["formal", "casual"] sample outfit realises the value
0.6 — in particular it is at least 0.2 and among the four reachable values. -/
theorem C10_coherence_values_witness :
    0.2 ≤ (analyzeOutfit outfitFormalCasual).styleCoherence ∧
    ((analyzeOutfit outfitFormalCasual).styleCoherence = 0.2 ∨
     (analyzeOutfit outfitFormalCasual).styleCoherence = 0.4 ∨
     (analyzeOutfit outfitFormalCasual).styleCoherence = 0.6 ∨
     (analyzeOutfit outfitFormalCasual).styleCoherence = 0.8) :=
  ⟨(C10_coherence_values outfitFormalCasual (by decide)).2.2.1,
   (C10_coherence_values outfitFormalCasual (by decide)).2.2.2⟩

theorem calculateColorHarmony_of_two_le (colors : List String)
    (h : 2 ≤ colors.length) :
    calculateColorHarmony colors =
      0.5 + (((colors.filter fun color =>
          neutrals.any fun neutral => strIncludesSub (jsToLower color) neutral).length : ℚ) /
        (colors.length : ℚ)) * 0.4 := by
  unfold calculateColorHarmony
  rw [if_neg (by omega), if_neg (by omega)]

theorem calculateColorHarmony_bounds (colors : List String) :
    0.5 ≤ calculateColorHarmony colors ∧ calculateColorHarmony colors ≤ 0.9 := by
  rcases Nat.lt_or_ge colors.length 2 with h | h
  · have h01 : colors.length = 0 ∨ colors.length = 1 := by omega
    rcases h01 with h0 | h1
    · unfold calculateColorHarmony
      rw [if_pos h0]
      norm_num
    · unfold calculateColorHarmony
      rw [if_neg (by omega), if_pos h1]
      norm_num
  · rw [calculateColorHarmony_of_two_le colors h]
    have hpos : (0 : ℚ) < (colors.length : ℚ) := by
      exact_mod_cast Nat.lt_of_lt_of_le (by norm_num) h
    have hfl : (colors.filter fun color =>
        neutrals.any fun neutral => strIncludesSub (jsToLower color) neutral).length ≤
        colors.length := List.length_filter_le _ _
    have hr0 : (0 : ℚ) ≤ ((colors.filter fun color =>
        neutrals.any fun neutral => strIncludesSub (jsToLower color) neutral).length : ℚ) /
        (colors.length : ℚ) := by positivity
    have hr1 : ((colors.filter fun color =>
        neutrals.any fun neutral => strIncludesSub (jsToLower color) neutral).length : ℚ) /
        (colors.length : ℚ) ≤ 1 := by
      rw [div_le_one hpos]
      exact_mod_cast hfl
    constructor <;> nlinarith

/-- C2: `colorHarmony` is 0.5 on an empty colour list, 0.9 on a single colour,
and otherwise 0.5 + 0.4 × (fraction of colours whose lower-cased text contains
a neutral colour as substring); the colour lists ["black", "navy"] and
["red", "navy"] score exactly 0.9 and 0.7, and every result lies in
[0.5, 0.9]. -/
theorem C2_colorHarmony (o : Outfit) :
    (o.tags.colors = [] → (analyzeOutfit o).colorHarmony = 0.5) ∧
    (o.tags.colors.length = 1 → (analyzeOutfit o).colorHarmony = 0.9) ∧
    (2 ≤ o.tags.colors.length →
      (analyzeOutfit o).colorHarmony =
        0.5 + (((o.tags.colors.filter fun color =>
            neutrals.any fun neutral => strIncludesSub (jsToLower color) neutral).length : ℚ) /
          (o.tags.colors.length : ℚ)) * 0.4) ∧
    calculateColorHarmony ["black", "navy"] = 0.9 ∧
    calculateColorHarmony ["red", "navy"] = 0.7 ∧
    0.5 ≤ (analyzeOutfit o).colorHarmony ∧ (analyzeOutfit o).colorHarmony ≤ 0.9 := by
  refine ⟨fun hnil => ?_, fun h1 => ?_, fun h2 => ?_, ?_, ?_, ?_, ?_⟩
  · rw [analyzeOutfit_colorHarmony, hnil]
    unfold calculateColorHarmony
    norm_num
  · rw [analyzeOutfit_colorHarmony]
    unfold calculateColorHarmony
    rw [if_neg (by omega), if_pos h1]
  · rw [analyzeOutfit_colorHarmony]
    exact calculateColorHarmony_of_two_le o.tags.colors h2
  · have hfl : ((["black", "navy"] : List String).filter fun color =>
        neutrals.any fun neutral => strIncludesSub (jsToLower color) neutral) =
        ["black", "navy"] := by decide
    rw [calculateColorHarmony_of_two_le _ (by decide), hfl]
    norm_num
  · have hfl : ((["red", "navy"] : List String).filter fun color =>
        neutrals.any fun neutral => strIncludesSub (jsToLower color) neutral) =
        ["navy"] := by decide
    rw [calculateColorHarmony_of_two_le _ (by decide), hfl]
    norm_num
  · exact (calculateColorHarmony_bounds o.tags.colors).1
  · exact (calculateColorHarmony_bounds o.tags.colors).2

/-- C2 witness: the sample outfits with zero, one and two colours discharge
the three hypotheses — no colours scores 0.5, one colour 0.9, and
["red", "navy"] scores 0.5 + (1/2) × 0.4 = 0.7. -/
theorem C2_colorHarmony_witness :
    (analyzeOutfit outfitNoTags).colorHarmony = 0.5 ∧
    (analyzeOutfit outfitOneColor).colorHarmony = 0.9 ∧
    (analyzeOutfit outfitRedNavy).colorHarmony = 0.7 := by
  refine ⟨(C2_colorHarmony outfitNoTags).1 rfl,
    (C2_colorHarmony outfitOneColor).2.1 rfl, ?_⟩
  have h := (C2_colorHarmony outfitRedNavy).2.2.1 (by decide)
  have hfl : (outfitRedNavy.tags.colors.filter fun color =>
      neutrals.any fun neutral => strIncludesSub (jsToLower color) neutral) =
      ["navy"] := by decide
  have hlen : outfitRedNavy.tags.colors.length = 2 := by decide
  rw [h, hfl, hlen]
  norm_num

/-- C3 counterexample: the claim asserts the dark-colours confidence factor is
awarded by case-insensitive substring match, so that colours ["Navy"] would
receive it; on the code the test is exact membership of the whole string in
["navy", "black"], and the outfit with colours ["Navy"] does not receive the
factor. -/
theorem C3_counterexample :
    ¬ ("Dark colors create a polished, confident appearance" ∈
        (analyzeOutfit outfitCapitalNavy).confidenceFactors) := by
  decide

/-- C3 (amended): the confidenceFactors list is built by three independent
tests — "classic" among the style tags, some colour exactly equal to "navy"
or "black" (case-sensitive whole-string equality, not substring match), and
"work" among the occasion tags — each true test appending one fixed string,
and the list depends only on `outfit.tags`. -/
theorem C3_confidenceFactors_amended (o : Outfit) :
    (analyzeOutfit o).confidenceFactors =
      (if "classic" ∈ o.tags.style then
        ["Classic style choices tend to boost confidence"] else []) ++
      (if ∃ c ∈ o.tags.colors, c = "navy" ∨ c = "black" then
        ["Dark colors create a polished, confident appearance"] else []) ++
      (if "work" ∈ o.tags.occasion then
        ["Professional appropriate outfit builds workplace confidence"] else []) ∧
    (∀ o' : Outfit, o.tags = o'.tags →
      (analyzeOutfit o).confidenceFactors = (analyzeOutfit o').confidenceFactors) := by
  constructor
  · rw [analyzeOutfit_factors]
    unfold identifyConfidenceFactors
    have hiff : (∃ c ∈ o.tags.colors, c ∈ (["navy", "black"] : List String)) ↔
        (∃ c ∈ o.tags.colors, c = "navy" ∨ c = "black") := by
      simp
    rw [if_congr hiff rfl rfl]
  · intro o' h
    rw [analyzeOutfit_factors, analyzeOutfit_factors]
    unfold identifyConfidenceFactors
    rw [h]

/-- C3 witness: the twin outfits share tags, so they share confidence factors;
the twin tag block (classic style, exact colour "navy", work occasion) earns
all three factors. -/
theorem C3_confidenceFactors_amended_witness :
    (analyzeOutfit outfitTwinA).confidenceFactors =
      (analyzeOutfit outfitTwinB).confidenceFactors ∧
    (analyzeOutfit outfitTwinA).confidenceFactors =
      ["Classic style choices tend to boost confidence",
       "Dark colors create a polished, confident appearance",
       "Professional appropriate outfit builds workplace confidence"] := by
  refine ⟨(C3_confidenceFactors_amended outfitTwinA).2 outfitTwinB rfl, ?_⟩
  rw [(C3_confidenceFactors_amended outfitTwinA).1]
  decide

/-- C4: the rating-insight threshold rules — confidence ≥ 8, confidence ≤ 4,
comfort ≥ 8, comfort ≤ 4, success ≥ 8, and confidence > comfort each
contribute their fixed note — and the ratings {confidence 9, comfort 3,
success 8} produce exactly the four notes confidence-high, comfort-low,
save-this-combination and style-over-comfort, in check order. -/
theorem C4_ratingInsights (o : Outfit) (r : OutfitRatings) (hr : o.ratings = some r) :
    (r.confidence ≥ 8 →
      "High confidence outfit - great style choice!" ∈ generateRatingInsights o) ∧
    (r.confidence ≤ 4 →
      "Consider what made you feel less confident about this outfit." ∈
        generateRatingInsights o) ∧
    (r.comfort ≥ 8 →
      "Very comfortable - perfect for active days." ∈ generateRatingInsights o) ∧
    (r.comfort ≤ 4 →
      "Low comfort - consider fabric and fit adjustments." ∈ generateRatingInsights o) ∧
    (r.success ≥ 8 →
      "Highly successful outfit - save this combination!" ∈ generateRatingInsights o) ∧
    (r.confidence > r.comfort →
      "Style over comfort trade-off - consider more comfortable alternatives." ∈
        generateRatingInsights o) ∧
    (r.confidence = 9 → r.comfort = 3 → r.success = 8 →
      generateRatingInsights o =
        ["High confidence outfit - great style choice!",
         "Low comfort - consider fabric and fit adjustments.",
         "Highly successful outfit - save this combination!",
         "Style over comfort trade-off - consider more comfortable alternatives."]) := by
  have hred : generateRatingInsights o =
      (if r.confidence ≥ 8 then
        ["High confidence outfit - great style choice!"]
       else if r.confidence ≤ 4 then
        ["Consider what made you feel less confident about this outfit."]
       else []) ++
      (if r.comfort ≥ 8 then
        ["Very comfortable - perfect for active days."]
       else if r.comfort ≤ 4 then
        ["Low comfort - consider fabric and fit adjustments."]
       else []) ++
      (if r.success ≥ 8 then
        ["Highly successful outfit - save this combination!"]
       else []) ++
      (if r.confidence > r.comfort then
        ["Style over comfort trade-off - consider more comfortable alternatives."]
       else []) := by
    unfold generateRatingInsights
    rw [hr]
  rw [hred]
  refine ⟨fun h => ?_, fun h => ?_, fun h => ?_, fun h => ?_, fun h => ?_, fun h => ?_,
    fun h9 h3 h8 => ?_⟩
  · rw [if_pos h]
    simp
  · rw [if_neg (show ¬r.confidence ≥ 8 by intro hc; linarith), if_pos h]
    simp
  · rw [if_pos h]
    simp
  · rw [if_neg (show ¬r.comfort ≥ 8 by intro hc; linarith), if_pos h]
    simp
  · rw [if_pos h]
    simp
  · rw [if_pos h]
    simp
  · rw [h9, h3, h8]
    norm_num

/-- C4 witness: the sample outfit rated {9, 3, 8} yields exactly the four
notes in order, and its confidence-high and success notes follow from the
threshold rules. -/
theorem C4_ratingInsights_witness :
    generateRatingInsights outfitRated938 =
      ["High confidence outfit - great style choice!",
       "Low comfort - consider fabric and fit adjustments.",
       "Highly successful outfit - save this combination!",
       "Style over comfort trade-off - consider more comfortable alternatives."] ∧
    "High confidence outfit - great style choice!" ∈
      generateRatingInsights outfitRated938 :=
  ⟨(C4_ratingInsights outfitRated938 ratings938 rfl).2.2.2.2.2.2 rfl rfl rfl,
   (C4_ratingInsights outfitRated938 ratings938 rfl).1 (by norm_num [ratings938])⟩

/-- C6: the summary of `analyzeOutfit` is selected solely by the arithmetic
mean of the three scores — mean ≥ 0.8 gives the excellent message,
0.6 ≤ mean < 0.8 the good-with-minor-improvements message, and mean < 0.6 the
needs-adjustment message. -/
theorem C6_summary (o : Outfit) :
    (((analyzeOutfit o).styleCoherence + (analyzeOutfit o).colorHarmony +
        (analyzeOutfit o).occasionAppropriateness) / 3 ≥ 0.8 →
      (analyzeOutfit o).summary =
        "Excellent outfit choice! Great style coherence and perfect for the occasion.") ∧
    (0.6 ≤ ((analyzeOutfit o).styleCoherence + (analyzeOutfit o).colorHarmony +
        (analyzeOutfit o).occasionAppropriateness) / 3 →
      ((analyzeOutfit o).styleCoherence + (analyzeOutfit o).colorHarmony +
        (analyzeOutfit o).occasionAppropriateness) / 3 < 0.8 →
      (analyzeOutfit o).summary = "Good outfit with room for minor improvements.") ∧
    (((analyzeOutfit o).styleCoherence + (analyzeOutfit o).colorHarmony +
        (analyzeOutfit o).occasionAppropriateness) / 3 < 0.6 →
      (analyzeOutfit o).summary =
        "Consider adjusting some elements for better overall harmony.") := by
  simp only [analyzeOutfit_styleCoherence, analyzeOutfit_colorHarmony,
    analyzeOutfit_occasion, analyzeOutfit_summary]
  have hred : generateAnalysisSummary (calculateStyleCoherence o)
      (calculateColorHarmony o.tags.colors) (calculateOccasionFit o) =
      if (calculateStyleCoherence o + calculateColorHarmony o.tags.colors +
          calculateOccasionFit o) / 3 ≥ 0.8 then
        "Excellent outfit choice! Great style coherence and perfect for the occasion."
      else if (calculateStyleCoherence o + calculateColorHarmony o.tags.colors +
          calculateOccasionFit o) / 3 ≥ 0.6 then
        "Good outfit with room for minor improvements."
      else
        "Consider adjusting some elements for better overall harmony." := rfl
  rw [hred]
  refine ⟨fun h => ?_, fun h1 h2 => ?_, fun h => ?_⟩
  · rw [if_pos h]
  · rw [if_neg (by intro hc; linarith), if_pos h1]
  · rw [if_neg (by intro hc; linarith), if_neg (by intro hc; linarith)]

/-- C6 witness: the twin outfit has mean (0.8 + 0.9 + 0.8)/3 ≥ 0.8 and gets
the excellent message; the mid-tier outfit has mean (0.8 + 0.5 + 0.8)/3 = 0.7
∈ [0.6, 0.8) and gets the good message; the all-empty-tags outfit has mean
0.5 < 0.6 and gets the needs-adjustment message. -/
theorem C6_summary_witness :
    (analyzeOutfit outfitTwinA).summary =
      "Excellent outfit choice! Great style coherence and perfect for the occasion." ∧
    (analyzeOutfit outfitMidTier).summary =
      "Good outfit with room for minor improvements." ∧
    (analyzeOutfit outfitNoTags).summary =
      "Consider adjusting some elements for better overall harmony." := by
  have hs0 : calculateStyleCoherence outfitNoTags = 0.5 := by
    simp [calculateStyleCoherence, outfitNoTags]
  have hc0 : calculateColorHarmony outfitNoTags.tags.colors = 0.5 := by
    simp [calculateColorHarmony, outfitNoTags]
  have ho0 : calculateOccasionFit outfitNoTags = 0.5 := by
    simp [calculateOccasionFit, outfitNoTags]
  have hsA : calculateStyleCoherence outfitTwinA = 0.8 := by
    rw [calculateStyleCoherence_of_ne_nil outfitTwinA (by decide)]
    have hcc : checkStyleConflicts outfitTwinA.tags.style = 0 := by decide
    rw [hcc]
    norm_num
  have hcA : calculateColorHarmony outfitTwinA.tags.colors = 0.9 := by
    have hfl : (outfitTwinA.tags.colors.filter fun color =>
        neutrals.any fun neutral => strIncludesSub (jsToLower color) neutral) =
        ["navy", "white"] := by decide
    have hlen : outfitTwinA.tags.colors.length = 2 := by decide
    rw [calculateColorHarmony_of_two_le _ (by decide), hfl, hlen]
    norm_num
  have hoA : calculateOccasionFit outfitTwinA = 0.8 := by
    simp [calculateOccasionFit, outfitTwinA, twinTags]
  have hsM : calculateStyleCoherence outfitMidTier = 0.8 := by
    rw [calculateStyleCoherence_of_ne_nil outfitMidTier (by decide)]
    have hcc : checkStyleConflicts outfitMidTier.tags.style = 0 := by decide
    rw [hcc]
    norm_num
  have hcM : calculateColorHarmony outfitMidTier.tags.colors = 0.5 := by
    have hfl : (outfitMidTier.tags.colors.filter fun color =>
        neutrals.any fun neutral => strIncludesSub (jsToLower color) neutral) =
        [] := by decide
    have hlen : outfitMidTier.tags.colors.length = 2 := by decide
    rw [calculateColorHarmony_of_two_le _ (by decide), hfl, hlen]
    norm_num
  have hoM : calculateOccasionFit outfitMidTier = 0.8 := by
    simp [calculateOccasionFit, outfitMidTier]
  refine ⟨(C6_summary outfitTwinA).1 ?_, (C6_summary outfitMidTier).2.1 ?_ ?_,
    (C6_summary outfitNoTags).2.2 ?_⟩ <;>
    simp only [analyzeOutfit_styleCoherence, analyzeOutfit_colorHarmony,
      analyzeOutfit_occasion, hs0, hc0, ho0, hsA, hcA, hoA, hsM, hcM, hoM] <;>
    norm_num

/-- C7: when the ratings field is absent `generateRatingInsights` returns the
single no-rating message (and, being a total function, never throws), and its
result depends only on `outfit.ratings`. -/
theorem C7_noRatings (o : Outfit) :
    (o.ratings = none →
      generateRatingInsights o = ["No ratings provided yet."]) ∧
    (∀ o' : Outfit, o.ratings = o'.ratings →
      generateRatingInsights o = generateRatingInsights o') := by
  constructor
  · intro h
    unfold generateRatingInsights
    rw [h]
  · intro o' h
    unfold generateRatingInsights
    rw [h]

/-- C7 witness: the ratings-free sample outfit gets exactly the no-rating
message, and an outfit with the same (absent) ratings but different tags gets
the same insights. -/
theorem C7_noRatings_witness :
    generateRatingInsights outfitNoTags = ["No ratings provided yet."] ∧
    generateRatingInsights outfitNoTags = generateRatingInsights outfitTwinA :=
  ⟨(C7_noRatings outfitNoTags).1 rfl,
   (C7_noRatings outfitNoTags).2 outfitTwinA rfl⟩

/-- C8: `analyzeOutfit` is a pure function of the outfit's tags — any two
outfits with equal tags (whatever their ids, ratings or notes) receive equal
analyses, and repeated calls on the same outfit trivially agree. -/
theorem C8_pure (o₁ o₂ : Outfit) (h : o₁.tags = o₂.tags) :
    analyzeOutfit o₁ = analyzeOutfit o₂ := by
  unfold analyzeOutfit calculateStyleCoherence calculateColorHarmony
    calculateOccasionFit generateImprovements identifyConfidenceFactors
  rw [h]

/-- C8 witness: the twin outfits differ in id, ratings and notes but share
tags, so their analyses coincide. -/
theorem C8_pure_witness : analyzeOutfit outfitTwinA = analyzeOutfit outfitTwinB :=
  C8_pure outfitTwinA outfitTwinB rfl

/-- C9 counterexample: the claim says all-empty tag collections degrade to
empty improvement and factor lists; on the code the all-empty outfit's
suggestedImprovements is NOT empty — the neutral 0.5 scores fall below the
0.6 improvement threshold, so the style and colour suggestions are pushed. -/
theorem C9_counterexample :
    (analyzeOutfit outfitNoTags).suggestedImprovements ≠ [] ∧
    (analyzeOutfit outfitNoTags).suggestedImprovements =
      ["Consider choosing accessories that better match your overall style",
       "Try limiting to 2-3 main colors for better harmony"] := by
  have hs0 : calculateStyleCoherence outfitNoTags = 0.5 := by
    simp [calculateStyleCoherence, outfitNoTags]
  have hc0 : calculateColorHarmony outfitNoTags.tags.colors = 0.5 := by
    simp [calculateColorHarmony, outfitNoTags]
  have himp : (analyzeOutfit outfitNoTags).suggestedImprovements =
      ["Consider choosing accessories that better match your overall style",
       "Try limiting to 2-3 main colors for better harmony"] := by
    rw [analyzeOutfit_improvements, hs0, hc0]
    unfold generateImprovements
    norm_num [outfitNoTags]
  exact ⟨by rw [himp]; decide, himp⟩

/-- C9 (amended): `analyzeOutfit` is total on every well-formed outfit (it is
a total function of the record, so no input can make it throw), and an outfit
whose tag collections are all empty degrades to the neutral 0.5 for all three
scores, an empty confidenceFactors list and the needs-adjustment summary —
but its suggestedImprovements list is not empty: it contains exactly the
generic style and colour suggestions, because the neutral 0.5 scores lie
below the 0.6 improvement threshold. -/
theorem C9_neutral_amended (o : Outfit)
    (hocc : o.tags.occasion = []) (hsty : o.tags.style = [])
    (hcol : o.tags.colors = []) (hgar : o.tags.garments = []) :
    (analyzeOutfit o).styleCoherence = 0.5 ∧
    (analyzeOutfit o).colorHarmony = 0.5 ∧
    (analyzeOutfit o).occasionAppropriateness = 0.5 ∧
    (analyzeOutfit o).confidenceFactors = [] ∧
    (analyzeOutfit o).suggestedImprovements =
      ["Consider choosing accessories that better match your overall style",
       "Try limiting to 2-3 main colors for better harmony"] ∧
    (analyzeOutfit o).summary =
      "Consider adjusting some elements for better overall harmony." := by
  have hs0 : calculateStyleCoherence o = 0.5 := by
    simp [calculateStyleCoherence, hsty]
  have hc0 : calculateColorHarmony o.tags.colors = 0.5 := by
    simp [calculateColorHarmony, hcol]
  have ho0 : calculateOccasionFit o = 0.5 := by
    simp [calculateOccasionFit, hocc]
  refine ⟨by rw [analyzeOutfit_styleCoherence, hs0],
    by rw [analyzeOutfit_colorHarmony, hc0],
    by rw [analyzeOutfit_occasion, ho0], ?_, ?_, ?_⟩
  · rw [analyzeOutfit_factors]
    unfold identifyConfidenceFactors
    rw [hsty, hcol, hocc]
    simp
  · rw [analyzeOutfit_improvements, hs0, hc0]
    unfold generateImprovements
    rw [hgar]
    norm_num
  · rw [analyzeOutfit_summary, hs0, hc0, ho0]
    unfold generateAnalysisSummary
    norm_num

/-- C9 witness: the all-empty sample outfit realises the amended degradation
behaviour. -/
theorem C9_neutral_amended_witness :
    (analyzeOutfit outfitNoTags).styleCoherence = 0.5 ∧
    (analyzeOutfit outfitNoTags).confidenceFactors = [] ∧
    (analyzeOutfit outfitNoTags).suggestedImprovements =
      ["Consider choosing accessories that better match your overall style",
       "Try limiting to 2-3 main colors for better harmony"] :=
  ⟨(C9_neutral_amended outfitNoTags rfl rfl rfl rfl).1,
   (C9_neutral_amended outfitNoTags rfl rfl rfl rfl).2.2.2.1,
   (C9_neutral_amended outfitNoTags rfl rfl rfl rfl).2.2.2.2.1⟩

theorem generateRecommendations_eq (rand : ℕ → ℚ) (now : ℕ) (ctx : RecContext) :
    generateRecommendations rand now ctx =
      List.insertionSort recScoreGE
        [generateSingleRecommendation rand now 0 ctx "high_confidence_historical",
         generateSingleRecommendation rand now 6 ctx "weather_optimized",
         generateSingleRecommendation rand now 12 ctx "occasion_perfect",
         generateSingleRecommendation rand now 18 ctx "comfort_focused",
         generateSingleRecommendation rand now 24 ctx "style_exploration"] := by
  rfl

/-- C5: for every randomness stream, clock value and context (including the
all-defaults empty context, whose `limit` field is never read),
`generateRecommendations` returns exactly 5 recommendations sorted by score
descending, every returned reasoning list is non-empty with exactly 3 fixed
strings, and each of the five fixed strategies contributes one
recommendation. -/
theorem C5_recommendations (rand : ℕ → ℚ) (now : ℕ) (ctx : RecContext) :
    (generateRecommendations rand now ctx).length = 5 ∧
    List.Sorted recScoreGE (generateRecommendations rand now ctx) ∧
    (∀ rec ∈ generateRecommendations rand now ctx,
      rec.reasoning ≠ [] ∧ rec.reasoning.length = 3) ∧
    (∀ approach ∈ approaches, ∃ rec ∈ generateRecommendations rand now ctx,
      rec.reasoning = generateRecommendationReasoning approach ctx) := by
  refine ⟨?_, ?_, ?_, ?_⟩
  · rw [generateRecommendations_eq,
      (List.perm_insertionSort recScoreGE _).length_eq]
    rfl
  · rw [generateRecommendations_eq]
    exact List.sorted_insertionSort recScoreGE _
  · intro rec hrec
    rw [generateRecommendations_eq, List.mem_insertionSort] at hrec
    simp only [List.mem_cons, List.not_mem_nil, or_false] at hrec
    rcases hrec with rfl | rfl | rfl | rfl | rfl <;>
      exact ⟨List.cons_ne_nil _ _, rfl⟩
  · intro approach happ
    rw [generateRecommendations_eq]
    simp only [approaches, List.mem_cons, List.not_mem_nil, or_false] at happ
    rcases happ with rfl | rfl | rfl | rfl | rfl
    · exact ⟨generateSingleRecommendation rand now 0 ctx "high_confidence_historical",
        (List.mem_insertionSort recScoreGE).mpr (List.mem_cons_self _ _), rfl⟩
    · exact ⟨generateSingleRecommendation rand now 6 ctx "weather_optimized",
        (List.mem_insertionSort recScoreGE).mpr
          (List.mem_cons_of_mem _ (List.mem_cons_self _ _)), rfl⟩
    · exact ⟨generateSingleRecommendation rand now 12 ctx "occasion_perfect",
        (List.mem_insertionSort recScoreGE).mpr
          (List.mem_cons_of_mem _ (List.mem_cons_of_mem _ (List.mem_cons_self _ _))), rfl⟩
    · exact ⟨generateSingleRecommendation rand now 18 ctx "comfort_focused",
        (List.mem_insertionSort recScoreGE).mpr
          (List.mem_cons_of_mem _ (List.mem_cons_of_mem _
            (List.mem_cons_of_mem _ (List.mem_cons_self _ _)))), rfl⟩
    · exact ⟨generateSingleRecommendation rand now 24 ctx "style_exploration",
        (List.mem_insertionSort recScoreGE).mpr
          (List.mem_cons_of_mem _ (List.mem_cons_of_mem _
            (List.mem_cons_of_mem _ (List.mem_cons_of_mem _
              (List.mem_cons_self _ _))))), rfl⟩

/-- C5 witness: with the constant-zero randomness stream, clock 0 and the
empty context, there are exactly 5 recommendations, the weather strategy
contributes one, and that one has a non-empty 3-string reasoning list. -/
theorem C5_recommendations_witness :
    (generateRecommendations (fun _ => (0 : ℚ)) 0 {}).length = 5 ∧
    (∃ rec ∈ generateRecommendations (fun _ => (0 : ℚ)) 0 {},
      rec.reasoning = generateRecommendationReasoning "weather_optimized" {} ∧
      rec.reasoning ≠ [] ∧ rec.reasoning.length = 3) := by
  have h := C5_recommendations (fun _ => (0 : ℚ)) 0 {}
  obtain ⟨rec, hmem, hres⟩ := h.2.2.2 "weather_optimized" (by decide)
  exact ⟨h.1, rec, hmem, hres, h.2.2.1 rec hmem⟩

end Stylisti
